import Mathlib

/-!
Verification development for the mancala repository (Go, gRPC services).

The embedding covers:
* the rule-engine service (`internal/engine/server.go`): request validation
  (`validateMoveRequest`, `isPlayablePit`) and the `Move` RPC;
* the game-session coordinator (`internal/games/server.go`, `models.go`):
  `Create`, `Move`, `NewGame`, `IsPlayerInGame`, `GetPlayerFromID`,
  `determineWinner`, together with the storage operations and published
  events that `Move` performs;
* the board-transition logic of the engine.  In the source snapshot the body
  of the engine `Move` carries a `TODO: Implement move logic` stub that only
  echoes the state back, while the engine test-suite
  (`internal/engine/server_test.go`) asserts the full sowing / capture /
  termination / extra-turn behaviour.  That transition logic is therefore
  modelled from the specification (see `applyMove` and friends below) and
  validated against every vector of the engine test-suite.

Machine integers: all counters are Go `uint32` values.  Every quantity that
appears in the game (at most 48 counters in total) is far below `2 ^ 32`, so
the embedding uses `Nat`; no arithmetic in the program can overflow.
-/

/-- Proto enum `Player` (`PLAYER_UNSPECIFIED`, `PLAYER_ONE`, `PLAYER_TWO`). -/
inductive Player where
  | unspecified
  | one
  | two
deriving DecidableEq, Repr

/-- Proto enum `Winner` (`NO_WINNER`, `WINNER_PLAYER_ONE`, `WINNER_PLAYER_TWO`, `DRAW`). -/
inductive Winner where
  | noWinner
  | playerOne
  | playerTwo
  | draw
deriving DecidableEq, Repr

/-- A board is the `pits` slice of the proto `Board` message: a sequence of
`uint32` counters (14 entries on every valid board). -/
abbrev Board := List Nat

/-- Proto message `GameState`: board plus current player. -/
structure GameState where
  board : Board
  currentPlayer : Player
deriving DecidableEq, Repr

/-- Proto message `MoveRequest` as consumed by the engine. -/
structure MoveRequest where
  gameState : GameState
  pitIndex : Nat
deriving DecidableEq, Repr

/-- Proto message `MoveResult`. -/
structure MoveResult where
  board : Board
  currentPlayer : Player
  isFinished : Bool
  winner : Winner
deriving DecidableEq, Repr

/-- The `result` oneof of the proto `MoveResponse`: either an in-band error
message or a move result. -/
inductive MoveResponseBody where
  | error (message : String)
  | moveResult (r : MoveResult)
deriving DecidableEq, Repr

/-- Error `errInvalidBoard` of `internal/engine/server.go`. -/
def errInvalidBoard : String := "board must have exactly 14 pits"

/-- Error `errInvalidPitIndex` of `internal/engine/server.go`. -/
def errInvalidPitIndex : String := "invalid pit index for current player"

/-- Error `errEmptyPit` of `internal/engine/server.go`. -/
def errEmptyPit : String := "pit cannot be empty"

/-- Function `isPlayablePit` of `internal/engine/server.go`:
`(p <= 5) && (player == PLAYER_ONE) || (p >= 7 && p <= 12) && (player == PLAYER_TWO)`. -/
def isPlayablePit (p : Nat) (player : Player) : Bool :=
  (decide (p ≤ 5) && (player == Player.one)) ||
    (decide (7 ≤ p) && decide (p ≤ 12) && (player == Player.two))

/-- Function `validateMoveRequest` of `internal/engine/server.go`: the three
precondition checks, in source order; `none` means the request is valid.
`board[pitIndex]` in the source is in bounds whenever it is reached, because
`isPlayablePit` has already bounded `pitIndex` by 12; `List.getD` agrees with
the Go indexing there. -/
def validateMoveRequest (req : MoveRequest) : Option String :=
  let board := req.gameState.board
  if board.length ≠ 14 then some errInvalidBoard
  else if !isPlayablePit req.pitIndex req.gameState.currentPlayer then some errInvalidPitIndex
  else if board.getD req.pitIndex 0 == 0 then some errEmptyPit
  else none

/-- Modelled from the spec: index of the mover's own store (6 for player one,
13 for player two).  The engine transition logic is absent from the source
snapshot (the engine `Move` body is a `TODO` stub), so this and the following
definitions follow spec section 4.1 and are checked below against every
vector of `internal/engine/server_test.go`. -/
def ownStore (p : Player) : Nat :=
  if p == Player.one then 6 else 13

/-- Modelled from the spec: index of the opponent's store, the index that
sowing skips. -/
def opponentStore (p : Player) : Nat :=
  if p == Player.one then 13 else 6

/-- Modelled from the spec: the other mover. -/
def otherPlayer (p : Player) : Player :=
  match p with
  | Player.one => Player.two
  | Player.two => Player.one
  | Player.unspecified => Player.unspecified

/-- Modelled from the spec: the mover's six playing pits (0-5 for player one,
7-12 for player two). -/
def ownPits (p : Player) : List Nat :=
  if p == Player.one then [0, 1, 2, 3, 4, 5] else [7, 8, 9, 10, 11, 12]

/-- Modelled from the spec: membership of an index in the mover's own side of
playing pits. -/
def isOwnPit (p : Player) (i : Nat) : Bool :=
  if p == Player.one then decide (i ≤ 5) else decide (7 ≤ i) && decide (i ≤ 12)

/-- Modelled from the spec: advance to the next index modulo 14, skipping the
opponent's store (the pointer advances past it without depositing). -/
def nextIndex (p : Player) (i : Nat) : Nat :=
  let j := (i + 1) % 14
  if j == opponentStore p then (j + 1) % 14 else j

/-- Modelled from the spec: the sequence of indices that receive one counter
each while sowing `n` counters from index `i`. -/
def sowTrace (p : Player) (i n : Nat) : List Nat :=
  match n with
  | 0 => []
  | n + 1 =>
    let j := nextIndex p i
    j :: sowTrace p j n

/-- Modelled from the spec: deposit one counter into pit `j`. -/
def deposit (b : Board) (j : Nat) : Board :=
  b.set j (b.getD j 0 + 1)

/-- Modelled from the spec: remove all counters from the chosen pit and
deposit one counter per step along the sowing trace. -/
def sowBoard (b : Board) (p : Player) (pit : Nat) : Board :=
  (sowTrace p pit (b.getD pit 0)).foldl deposit (b.set pit 0)

/-- Modelled from the spec: the index of the pit that receives the final sown
counter (the chosen pit holds at least one counter whenever this is used, so
the default is never taken on valid requests). -/
def lastSown (b : Board) (p : Player) (pit : Nat) : Nat :=
  (sowTrace p pit (b.getD pit 0)).getLastD pit

/-- Modelled from the spec: the capture rule.  If the final pit belongs to the
mover's own side, now holds exactly one counter, and the directly-opposite
pit `12 - last` is non-empty, then the just-placed counter plus the opposite
pit's contents move into the mover's store and both pits become zero. -/
def captureStep (p : Player) (b : Board) (last : Nat) : Board :=
  if isOwnPit p last && (b.getD last 0 == 1) && (b.getD (12 - last) 0 != 0) then
    ((b.set (ownStore p) (b.getD (ownStore p) 0 + 1 + b.getD (12 - last) 0)).set last 0).set
      (12 - last) 0
  else b

/-- Modelled from the spec: whether every listed pit is empty. -/
def allZero (b : Board) (idxs : List Nat) : Bool :=
  idxs.all fun j => b.getD j 0 == 0

/-- Modelled from the spec: zero out every listed pit. -/
def zeroPits (b : Board) (idxs : List Nat) : Board :=
  idxs.foldl (fun acc j => acc.set j 0) b

/-- Modelled from the spec: sweep every counter remaining on side `q`'s six
playing pits into side `q`'s own store and zero those pits. -/
def sweep (b : Board) (q : Player) : Board :=
  (zeroPits b (ownPits q)).set (ownStore q)
    (b.getD (ownStore q) 0 + ((ownPits q).map fun j => b.getD j 0).sum)

/-- Modelled from the spec: declare a winner by comparing the two stores
(strictly higher store wins; equal stores is a draw). -/
def decideWinner (b : Board) : Winner :=
  if b.getD 13 0 < b.getD 6 0 then Winner.playerOne
  else if b.getD 6 0 < b.getD 13 0 then Winner.playerTwo
  else Winner.draw

/-- Modelled from the spec: the full board transition of a validated move -
sowing, then capture, then the termination check with sweep and winner, and
otherwise the extra-turn rule.  On a terminal result the engine test-suite
expects the default (`PLAYER_UNSPECIFIED`) mover, which is what the proto
default gives when the field is not set. -/
def applyMove (b : Board) (p : Player) (pit : Nat) : MoveResult :=
  let sown := sowBoard b p pit
  let last := lastSown b p pit
  let afterCapture := captureStep p sown last
  if allZero afterCapture (ownPits p) then
    let final := sweep afterCapture (otherPlayer p)
    { board := final
      currentPlayer := Player.unspecified
      isFinished := true
      winner := decideWinner final }
  else
    { board := afterCapture
      currentPlayer := if last == ownStore p then p else otherPlayer p
      isFinished := false
      winner := Winner.noWinner }

/-- The engine `Move` RPC body: validate, answering rule violations in-band,
and otherwise apply the move (the latter modelled from the spec, see
`applyMove`). -/
def engineMove (req : MoveRequest) : MoveResponseBody :=
  match validateMoveRequest req with
  | some msg => MoveResponseBody.error msg
  | none =>
    MoveResponseBody.moveResult
      (applyMove req.gameState.board req.gameState.currentPlayer req.pitIndex)

/-- The engine `Move` RPC as a Go function value `(resp, err)`: the `.error`
side of `Except` is a non-nil Go error (a transport/panic-style failure), the
`.ok` side the in-band response.  The source returns `nil` for the error on
every path. -/
def engineServerMove (req : MoveRequest) : Except String MoveResponseBody :=
  Except.ok (engineMove req)

/-- Proto message `Game` of the games service: session record. -/
structure Game where
  id : String
  state : GameState
  player1Id : String
  player2Id : String
deriving DecidableEq, Repr

/-- Function `NewGame` of `internal/games/models.go`.  The source draws the
game id from `crypto/rand`; the id is therefore a parameter of the embedding.
The initial board and first mover are the source literals. -/
def NewGame (player1ID player2ID : String) (gameID : String) : Game :=
  { id := gameID
    state :=
      { board := [4, 4, 4, 4, 4, 4, 0, 4, 4, 4, 4, 4, 4, 0], currentPlayer := Player.one }
    player1Id := player1ID
    player2Id := player2ID }

/-- Function `IsPlayerInGame` of `internal/games/models.go`. -/
def IsPlayerInGame (game : Game) (playerID : String) : Bool :=
  game.player1Id == playerID || game.player2Id == playerID

/-- Function `GetPlayerFromID` of `internal/games/models.go`: player one if
the id equals participant one's, otherwise player two. -/
def GetPlayerFromID (playerID : String) (game : Game) : Player :=
  if game.player1Id == playerID then Player.one else Player.two

/-- The persistent session store keyed by game id (Redis `game:<id>` keys or
the in-memory mock; both are a key-value map).  Association list keyed by id. -/
abbrev Store := List (String × Game)

/-- `Storage.GetGame`: look the record up by id; `none` is the miss
(`redis.Nil`) case. -/
def getGame (s : Store) (gameID : String) : Option Game :=
  (s.find? fun kv => kv.1 == gameID).map fun kv => kv.2

/-- `Storage.SaveGame`: an unconditional `SET`, overwriting the record if the
key exists and creating it otherwise. -/
def saveGame (s : Store) (game : Game) : Store :=
  if (s.find? fun kv => kv.1 == game.id).isSome then
    s.map fun kv => if kv.1 == game.id then (kv.1, game) else kv
  else s ++ [(game.id, game)]

/-- `Storage.DeleteGame`: `DEL` of the record's key. -/
def deleteGame (s : Store) (gameID : String) : Store :=
  s.filter fun kv => kv.1 != gameID

/-- Proto message `MakeGameMoveRequest` of the games service. -/
structure MakeGameMoveRequest where
  playerId : String
  gameId : String
  pitIndex : Nat
deriving DecidableEq, Repr

/-- The `result` oneof of the proto `MakeGameMoveResponse`. -/
inductive GameMoveResult where
  | error (message : String)
  | moveResult (r : MoveResult)
deriving DecidableEq, Repr

/-- A persistence mutation performed by the coordinator against storage. -/
inductive StorageOp where
  | save (game : Game)
  | delete (gameID : String)
deriving DecidableEq, Repr

/-- An event published by the coordinator (`PublishMoveMade` carries player,
pit and the updated state and result; `PublishGameOver` carries winner id,
draw flag and the final state). -/
inductive GameEvent where
  | moveMade (gameID playerID : String) (pitIndex : Nat) (state : GameState) (result : MoveResult)
  | gameOver (gameID winnerID : String) (isDraw : Bool) (finalState : GameState)
deriving DecidableEq, Repr

/-- What the injected `EngineClient.Move` call can yield: a non-nil Go error
(transport failure), or a response whose oneof is `none` (the `default`
switch branch of the source), an in-band error, or a move result. -/
inductive EngineReply where
  | goError (msg : String)
  | reply (body : Option MoveResponseBody)
deriving DecidableEq, Repr

/-- Function `determineWinner` of `internal/games/server.go`: map the engine
winner to a participant id; draw or no winner give the empty string. -/
def determineWinner (moveResult : MoveResult) (game : Game) : String :=
  if !moveResult.isFinished then ""
  else
    match moveResult.winner with
    | Winner.playerOne => game.player1Id
    | Winner.playerTwo => game.player2Id
    | _ => ""

/-- Outcome of one `games.Server.Move` call: the response, the store as left
by the call, and the persistence operations and events it performed, in
order. -/
structure MoveOutcome where
  response : GameMoveResult
  store : Store
  ops : List StorageOp
  events : List GameEvent
deriving DecidableEq, Repr

/-- Method `Move` of `internal/games/server.go` (`SubmitMove`): the four
validations in source order, the delegation to the injected engine client,
and on success the state update, the event publications (`MOVE_MADE` always,
then `GAME_OVER` when finished) and the storage delete/save.  Storage
reads/writes are modelled as always available (their failure branches return
distinct errors in the source and are not reachable in the pure store);
event-publication failures are logged and ignored by the source, so events
are recorded unconditionally. -/
def gamesMove (engine : MoveRequest → EngineReply) (store : Store)
    (req : MakeGameMoveRequest) : MoveOutcome :=
  if req.playerId == "" || req.gameId == "" then
    { response := GameMoveResult.error "player ID and game ID are required"
      store := store, ops := [], events := [] }
  else
    match getGame store req.gameId with
    | none =>
      { response := GameMoveResult.error "game not found"
        store := store, ops := [], events := [] }
    | some game =>
      if !IsPlayerInGame game req.playerId then
        { response := GameMoveResult.error "player is not part of this game"
          store := store, ops := [], events := [] }
      else
        let currentPlayer := GetPlayerFromID req.playerId game
        if game.state.currentPlayer != currentPlayer then
          { response := GameMoveResult.error "it\x27s not your turn"
            store := store, ops := [], events := [] }
        else
          match engine { gameState := game.state, pitIndex := req.pitIndex } with
          | EngineReply.goError msg =>
            { response := GameMoveResult.error ("engine error: " ++ msg)
              store := store, ops := [], events := [] }
          | EngineReply.reply none =>
            { response := GameMoveResult.error "unexpected engine response"
              store := store, ops := [], events := [] }
          | EngineReply.reply (some (MoveResponseBody.error e)) =>
            { response := GameMoveResult.error e
              store := store, ops := [], events := [] }
          | EngineReply.reply (some (MoveResponseBody.moveResult r)) =>
            let game' :=
              { game with state := { board := r.board, currentPlayer := r.currentPlayer } }
            let moveEvent :=
              GameEvent.moveMade req.gameId req.playerId req.pitIndex game'.state r
            if r.isFinished then
              let winnerID := determineWinner r game'
              { response := GameMoveResult.moveResult r
                store := deleteGame store req.gameId
                ops := [StorageOp.delete req.gameId]
                events :=
                  [moveEvent,
                    GameEvent.gameOver req.gameId winnerID (winnerID == "") game'.state] }
            else
              { response := GameMoveResult.moveResult r
                store := saveGame store game'
                ops := [StorageOp.save game']
                events := [moveEvent] }

/-- Method `Create` of `internal/games/server.go`: reject an empty id with a
Go error, otherwise build the record via `NewGame` and save it.  The fresh
game id is a parameter (see `NewGame`). -/
def gamesCreate (store : Store) (player1Id player2Id gameID : String) :
    Except String (Game × Store) :=
  if player1Id == "" || player2Id == "" then Except.error "both player IDs are required"
  else
    let game := NewGame player1Id player2Id gameID
    Except.ok (game, saveGame store game)

/-- Abbreviation for the board after the sowing and capture phases of a move
(the `afterCapture` intermediate of `applyMove`). -/
def afterCapture (b : Board) (p : Player) (pit : Nat) : Board :=
  captureStep p (sowBoard b p pit) (lastSown b p pit)

/-- The engine-level transition system: a game state is reachable when it
arises from the canonical initial state (the `NewGame` board, player one to
move) by a finite sequence of legal moves, each validated by
`validateMoveRequest` and applied by the (spec-modelled) `applyMove`. -/
inductive Reachable : GameState → Prop where
  | init :
      Reachable
        { board := [4, 4, 4, 4, 4, 4, 0, 4, 4, 4, 4, 4, 4, 0], currentPlayer := Player.one }
  | step (s : GameState) (pit : Nat) :
      Reachable s →
      validateMoveRequest { gameState := s, pitIndex := pit } = none →
      Reachable
        { board := (applyMove s.board s.currentPlayer pit).board
          currentPlayer := (applyMove s.board s.currentPlayer pit).currentPlayer }

/-! ### The engine test-suite vectors, checked against the modelled move -/

example :
    engineMove
      { gameState :=
          { board := [4, 4, 4, 4, 4, 8, 0, 1, 1, 1, 1, 1, 1, 0], currentPlayer := Player.one }
        pitIndex := 5 } =
      MoveResponseBody.moveResult
        { board := [5, 4, 4, 4, 4, 0, 1, 2, 2, 2, 2, 2, 2, 0]
          currentPlayer := Player.two
          isFinished := false
          winner := Winner.noWinner } := by
  decide

example :
    engineMove
      { gameState :=
          { board := [1, 0, 0, 0, 0, 1, 0, 1, 1, 1, 1, 1, 1, 0], currentPlayer := Player.one }
        pitIndex := 0 } =
      MoveResponseBody.moveResult
        { board := [0, 0, 0, 0, 0, 1, 2, 1, 1, 1, 1, 0, 1, 0]
          currentPlayer := Player.two
          isFinished := false
          winner := Winner.noWinner } := by
  decide

example :
    engineMove
      { gameState :=
          { board := [1, 0, 0, 0, 0, 1, 0, 1, 1, 1, 1, 1, 1, 0], currentPlayer := Player.one }
        pitIndex := 5 } =
      MoveResponseBody.moveResult
        { board := [1, 0, 0, 0, 0, 0, 1, 1, 1, 1, 1, 1, 1, 0]
          currentPlayer := Player.one
          isFinished := false
          winner := Winner.noWinner } := by
  decide

example :
    engineMove
      { gameState :=
          { board := [0, 0, 0, 0, 0, 1, 0, 1, 1, 1, 1, 1, 1, 0], currentPlayer := Player.one }
        pitIndex := 5 } =
      MoveResponseBody.moveResult
        { board := [0, 0, 0, 0, 0, 0, 1, 0, 0, 0, 0, 0, 0, 6]
          currentPlayer := Player.unspecified
          isFinished := true
          winner := Winner.playerTwo } := by
  decide

example :
    engineMove
      { gameState := { board := [0, 0, 0, 0, 0], currentPlayer := Player.one }, pitIndex := 5 } =
      MoveResponseBody.error errInvalidBoard := by
  decide

example :
    engineMove
      { gameState :=
          { board := [4, 0, 0, 0, 0, 0, 0, 4, 0, 0, 0, 0, 0, 0], currentPlayer := Player.one }
        pitIndex := 14 } =
      MoveResponseBody.error errInvalidPitIndex := by
  decide

example :
    engineMove
      { gameState :=
          { board := [4, 0, 0, 0, 0, 0, 0, 4, 0, 0, 0, 0, 0, 0], currentPlayer := Player.one }
        pitIndex := 5 } =
      MoveResponseBody.error errEmptyPit := by
  decide

/-! ### Helper lemmas about the board primitives -/

lemma getD_set_self (b : Board) (i v : Nat) (h : i < b.length) :
    (b.set i v).getD i 0 = v := by
  simp [List.getD_eq_getElem?_getD, List.getElem?_set_self h]

lemma getD_set_ne (b : Board) (i j v : Nat) (h : i ≠ j) :
    (b.set i v).getD j 0 = b.getD j 0 := by
  simp [List.getD_eq_getElem?_getD, List.getElem?_set_ne h]

lemma sum_set (b : Board) (i v : Nat) (h : i < b.length) :
    (b.set i v).sum + b.getD i 0 = b.sum + v := by
  induction b generalizing i with
  | nil => simp at h
  | cons a t ih =>
    cases i with
    | zero => simp [List.getD]; omega
    | succ n =>
      have hn : n < t.length := by simpa using h
      have := ih n hn
      simp only [List.set, List.sum_cons, List.getD_cons_succ]
      omega

lemma exists_fourteen (b : Board) (h : b.length = 14) :
    ∃ a0 a1 a2 a3 a4 a5 a6 a7 a8 a9 a10 a11 a12 a13,
      b = [a0, a1, a2, a3, a4, a5, a6, a7, a8, a9, a10, a11, a12, a13] := by
  rcases b with _ | ⟨a0, b⟩; · simp at h
  rcases b with _ | ⟨a1, b⟩; · simp at h
  rcases b with _ | ⟨a2, b⟩; · simp at h
  rcases b with _ | ⟨a3, b⟩; · simp at h
  rcases b with _ | ⟨a4, b⟩; · simp at h
  rcases b with _ | ⟨a5, b⟩; · simp at h
  rcases b with _ | ⟨a6, b⟩; · simp at h
  rcases b with _ | ⟨a7, b⟩; · simp at h
  rcases b with _ | ⟨a8, b⟩; · simp at h
  rcases b with _ | ⟨a9, b⟩; · simp at h
  rcases b with _ | ⟨a10, b⟩; · simp at h
  rcases b with _ | ⟨a11, b⟩; · simp at h
  rcases b with _ | ⟨a12, b⟩; · simp at h
  rcases b with _ | ⟨a13, b⟩; · simp at h
  rcases b with _ | ⟨a14, b⟩
  · exact ⟨a0, a1, a2, a3, a4, a5, a6, a7, a8, a9, a10, a11, a12, a13, rfl⟩
  · simp at h

lemma nextIndex_lt (p : Player) (i : Nat) : nextIndex p i < 14 := by
  simp only [nextIndex]
  split
  · exact Nat.mod_lt _ (by omega)
  · exact Nat.mod_lt _ (by omega)

lemma opponentStore_cases (p : Player) :
    opponentStore p = 13 ∨ opponentStore p = 6 := by
  unfold opponentStore
  split
  · exact Or.inl rfl
  · exact Or.inr rfl

lemma nextIndex_ne_opponentStore (p : Player) (i : Nat) :
    nextIndex p i ≠ opponentStore p := by
  simp only [nextIndex]
  by_cases h : (i + 1) % 14 = opponentStore p
  · rw [h]
    simp only [beq_self_eq_true, if_true]
    rcases opponentStore_cases p with hop | hop <;> rw [hop] <;> norm_num
  · have hb : ((i + 1) % 14 == opponentStore p) = false := beq_eq_false_iff_ne.mpr h
    simp only [hb, Bool.false_eq_true, if_false]
    exact h

lemma sowTrace_length (p : Player) (i n : Nat) : (sowTrace p i n).length = n := by
  induction n generalizing i with
  | zero => rfl
  | succ n ih => simp [sowTrace, ih]

lemma sowTrace_mem_lt (p : Player) (i n : Nat) : ∀ j ∈ sowTrace p i n, j < 14 := by
  induction n generalizing i with
  | zero => simp [sowTrace]
  | succ n ih =>
    intro j hj
    simp only [sowTrace, List.mem_cons] at hj
    rcases hj with rfl | hj
    · exact nextIndex_lt p i
    · exact ih _ j hj

lemma opponentStore_not_mem_sowTrace (p : Player) (i n : Nat) :
    opponentStore p ∉ sowTrace p i n := by
  induction n generalizing i with
  | zero => simp [sowTrace]
  | succ n ih =>
    simp only [sowTrace, List.mem_cons, not_or]
    exact ⟨fun hc => nextIndex_ne_opponentStore p i hc.symm, ih _⟩

lemma length_deposit (b : Board) (j : Nat) : (deposit b j).length = b.length := by
  simp [deposit]

lemma length_foldl_deposit (tr : List Nat) (b : Board) :
    (tr.foldl deposit b).length = b.length := by
  induction tr generalizing b with
  | nil => rfl
  | cons j tr ih => simp [List.foldl_cons, ih, length_deposit]

lemma sum_deposit (b : Board) (j : Nat) (h : j < b.length) :
    (deposit b j).sum = b.sum + 1 := by
  have := sum_set b j (b.getD j 0 + 1) h
  simp only [deposit]
  omega

lemma sum_foldl_deposit (tr : List Nat) (b : Board) (h : ∀ j ∈ tr, j < b.length) :
    (tr.foldl deposit b).sum = b.sum + tr.length := by
  induction tr generalizing b with
  | nil => simp
  | cons j tr ih =>
    have hj : j < b.length := h j (by simp)
    have h2 : ∀ k ∈ tr, k < (deposit b j).length := by
      intro k hk
      rw [length_deposit]
      exact h k (List.mem_cons_of_mem _ hk)
    rw [List.foldl_cons, ih _ h2, sum_deposit b j hj]
    simp
    omega

lemma getD_foldl_deposit (tr : List Nat) (b : Board) (j : Nat)
    (h : ∀ k ∈ tr, k < b.length) :
    (tr.foldl deposit b).getD j 0 = b.getD j 0 + tr.count j := by
  induction tr generalizing b with
  | nil => simp
  | cons t tr ih =>
    have ht : t < b.length := h t (by simp)
    have h2 : ∀ k ∈ tr, k < (deposit b t).length := by
      intro k hk
      rw [length_deposit]
      exact h k (List.mem_cons_of_mem _ hk)
    rw [List.foldl_cons, ih _ h2]
    by_cases hjt : t = j
    · subst hjt
      rw [List.count_cons_self]
      simp only [deposit]
      rw [getD_set_self b t _ ht]
      omega
    · rw [List.count_cons_of_ne (by exact fun hc => hjt hc.symm)]
      simp only [deposit]
      rw [getD_set_ne b t j _ hjt]

lemma sowBoard_length (b : Board) (p : Player) (pit : Nat) :
    (sowBoard b p pit).length = b.length := by
  simp [sowBoard, length_foldl_deposit, List.length_set]

lemma sowBoard_sum (b : Board) (p : Player) (pit : Nat) (h : b.length = 14)
    (hpit : pit < 14) : (sowBoard b p pit).sum = b.sum := by
  unfold sowBoard
  have hmem : ∀ j ∈ sowTrace p pit (b.getD pit 0), j < (b.set pit 0).length := by
    intro j hj
    rw [List.length_set, h]
    exact sowTrace_mem_lt _ _ _ j hj
  rw [sum_foldl_deposit _ _ hmem, sowTrace_length]
  have := sum_set b pit 0 (by omega)
  omega

lemma captureStep_length (p : Player) (b : Board) (last : Nat) :
    (captureStep p b last).length = b.length := by
  unfold captureStep
  split <;> simp [List.length_set]

lemma isOwnPit_facts (p : Player) (last : Nat) (h : isOwnPit p last = true) :
    last ≤ 12 ∧ last ≠ 6 ∧ 12 - last ≤ 12 ∧ 12 - last ≠ 6 ∧ last ≠ 12 - last ∧
      ownStore p ≠ last ∧ ownStore p ≠ 12 - last ∧ ownStore p < 14 := by
  unfold isOwnPit ownStore at *
  by_cases hp : p == Player.one <;> simp [hp] at h ⊢ <;> omega

lemma captureStep_sum (p : Player) (b : Board) (last : Nat) (h : b.length = 14) :
    (captureStep p b last).sum = b.sum := by
  unfold captureStep
  split
  case isTrue hc =>
    have hc' := hc
    simp only [Bool.and_eq_true, beq_iff_eq, bne_iff_ne, ne_eq] at hc'
    obtain ⟨⟨hown, hlast1⟩, _⟩ := hc'
    obtain ⟨h12, _, ho12, _, hlo, hsl, hso, hs14⟩ := isOwnPit_facts p last hown
    have e1 := sum_set b (ownStore p) (b.getD (ownStore p) 0 + 1 + b.getD (12 - last) 0)
      (by omega)
    have l1 : (b.set (ownStore p) (b.getD (ownStore p) 0 + 1 + b.getD (12 - last) 0)).length =
        b.length := List.length_set ..
    have g1 : (b.set (ownStore p) (b.getD (ownStore p) 0 + 1 + b.getD (12 - last) 0)).getD
        last 0 = b.getD last 0 := getD_set_ne _ _ _ _ hsl
    have e2 := sum_set
      (b.set (ownStore p) (b.getD (ownStore p) 0 + 1 + b.getD (12 - last) 0)) last 0
      (by rw [l1]; omega)
    have l2 : ((b.set (ownStore p) (b.getD (ownStore p) 0 + 1 + b.getD (12 - last) 0)).set
        last 0).length = b.length := by rw [List.length_set, l1]
    have g2 : ((b.set (ownStore p) (b.getD (ownStore p) 0 + 1 + b.getD (12 - last) 0)).set
        last 0).getD (12 - last) 0 = b.getD (12 - last) 0 := by
      rw [getD_set_ne _ _ _ _ hlo, getD_set_ne _ _ _ _ hso]
    have e3 := sum_set
      ((b.set (ownStore p) (b.getD (ownStore p) 0 + 1 + b.getD (12 - last) 0)).set last 0)
      (12 - last) 0 (by rw [l2]; omega)
    omega
  case isFalse => rfl

lemma zeroPits_cons (b : Board) (j : Nat) (idxs : List Nat) :
    zeroPits b (j :: idxs) = zeroPits (b.set j 0) idxs := rfl

lemma zeroPits_length (idxs : List Nat) (b : Board) :
    (zeroPits b idxs).length = b.length := by
  induction idxs generalizing b with
  | nil => rfl
  | cons j idxs ih => rw [zeroPits_cons, ih, List.length_set]

lemma sweep_length (b : Board) (q : Player) : (sweep b q).length = b.length := by
  simp [sweep, List.length_set, zeroPits_length]

lemma sweep_sum (b : Board) (q : Player) (h : b.length = 14) :
    (sweep b q).sum = b.sum := by
  obtain ⟨a0, a1, a2, a3, a4, a5, a6, a7, a8, a9, a10, a11, a12, a13, rfl⟩ :=
    exists_fourteen b h
  unfold sweep ownPits ownStore
  by_cases hq : q == Player.one <;> simp [hq, zeroPits] <;> omega

lemma applyMove_board_length (b : Board) (p : Player) (pit : Nat) :
    (applyMove b p pit).board.length = b.length := by
  unfold applyMove
  by_cases hz : allZero (captureStep p (sowBoard b p pit) (lastSown b p pit)) (ownPits p) <;>
    simp [hz, sweep_length, captureStep_length, sowBoard_length]

lemma applyMove_board_sum (b : Board) (p : Player) (pit : Nat) (h : b.length = 14)
    (hpit : pit < 14) : (applyMove b p pit).board.sum = b.sum := by
  have hsow : (sowBoard b p pit).length = 14 := by rw [sowBoard_length]; exact h
  have hcap : (captureStep p (sowBoard b p pit) (lastSown b p pit)).length = 14 := by
    rw [captureStep_length]; exact hsow
  unfold applyMove
  by_cases hz : allZero (captureStep p (sowBoard b p pit) (lastSown b p pit)) (ownPits p) <;>
    simp [hz]
  · rw [sweep_sum _ _ hcap, captureStep_sum _ _ _ hsow, sowBoard_sum _ _ _ h hpit]
  · rw [captureStep_sum _ _ _ hsow, sowBoard_sum _ _ _ h hpit]

lemma validate_none (req : MoveRequest) (h : validateMoveRequest req = none) :
    req.gameState.board.length = 14 ∧
      isPlayablePit req.pitIndex req.gameState.currentPlayer = true ∧
      req.gameState.board.getD req.pitIndex 0 ≠ 0 := by
  simp only [validateMoveRequest] at h
  by_cases h1 : req.gameState.board.length = 14
  · rw [if_neg (by exact fun hc => hc h1)] at h
    by_cases h2 : isPlayablePit req.pitIndex req.gameState.currentPlayer = true
    · rw [if_neg (by simp [h2])] at h
      by_cases h3 : req.gameState.board.getD req.pitIndex 0 = 0
      · rw [if_pos (by exact beq_iff_eq.mpr h3)] at h
        exact absurd h (by simp)
      · exact ⟨h1, h2, h3⟩
    · rw [if_pos (by simp [Bool.of_not_eq_true h2])] at h
      exact absurd h (by simp)
  · rw [if_pos h1] at h
    exact absurd h (by simp)

lemma isPlayablePit_cases (pit : Nat) (p : Player) (h : isPlayablePit pit p = true) :
    (p = Player.one ∧ pit ≤ 5) ∨ (p = Player.two ∧ 7 ≤ pit ∧ pit ≤ 12) := by
  unfold isPlayablePit at h
  simp only [Bool.or_eq_true, Bool.and_eq_true, decide_eq_true_eq, beq_iff_eq] at h
  tauto

lemma pit_lt_14_of_playable (pit : Nat) (p : Player) (h : isPlayablePit pit p = true) :
    pit < 14 := by
  rcases isPlayablePit_cases _ _ h with ⟨_, h5⟩ | ⟨_, _, h12⟩ <;> omega

/-- C5: for every game state reachable by legal engine transitions from the
initial board (four counters in each non-store pit, stores empty), the board
keeps exactly 14 pits and the sum of all 14 counters is 48, across sowing,
captures and termination sweeps alike. -/
theorem counter_conservation (s : GameState) (h : Reachable s) :
    s.board.length = 14 ∧ s.board.sum = 48 := by
  induction h with
  | init => exact ⟨by decide, by decide⟩
  | step s pit hr hv ih =>
    obtain ⟨hlen, hsum⟩ := ih
    obtain ⟨h14, hplay, hne⟩ := validate_none _ hv
    have hpit : pit < 14 := pit_lt_14_of_playable _ _ hplay
    constructor
    · show (applyMove s.board s.currentPlayer pit).board.length = 14
      rw [applyMove_board_length]
      exact hlen
    · show (applyMove s.board s.currentPlayer pit).board.sum = 48
      rw [applyMove_board_sum _ _ _ h14 hpit]
      exact hsum

/-- Witness for C5 at a concrete reachable state: the state after player one
legally moves pit 2 from the initial board. -/
theorem counter_conservation_witness :
    (applyMove [4, 4, 4, 4, 4, 4, 0, 4, 4, 4, 4, 4, 4, 0] Player.one 2).board.length = 14 ∧
      (applyMove [4, 4, 4, 4, 4, 4, 0, 4, 4, 4, 4, 4, 4, 0] Player.one 2).board.sum = 48 :=
  counter_conservation _
    (Reachable.step
      { board := [4, 4, 4, 4, 4, 4, 0, 4, 4, 4, 4, 4, 4, 0], currentPlayer := Player.one } 2
      Reachable.init (by decide))

/-- C1: on every valid request, sowing removes all counters from the chosen
pit and deposits one counter per index of the sowing trace (which advances
modulo 14 and never visits the opponent's store); in particular the trace of
player one sowing 13 counters from pit 5 visits 6,7,8,9,10,11,12,0,1,2,3,4
in order (and then pit 5 itself), and index 13 receives nothing. -/
theorem sowing_spec (b : Board) (p : Player) (pit : Nat)
    (h :
      validateMoveRequest
        { gameState := { board := b, currentPlayer := p }, pitIndex := pit } = none) :
    (∀ j, j < 14 →
        (sowBoard b p pit).getD j 0 =
          (if j = pit then 0 else b.getD j 0) + (sowTrace p pit (b.getD pit 0)).count j) ∧
      opponentStore p ∉ sowTrace p pit (b.getD pit 0) ∧
      sowTrace Player.one 5 13 = [6, 7, 8, 9, 10, 11, 12, 0, 1, 2, 3, 4, 5] ∧
      (sowTrace Player.one 5 13).take 12 = [6, 7, 8, 9, 10, 11, 12, 0, 1, 2, 3, 4] ∧
      13 ∉ sowTrace Player.one 5 13 := by
  obtain ⟨h14, hplay, hne⟩ := validate_none _ h
  have hb : b.length = 14 := h14
  have hpit : pit < 14 := pit_lt_14_of_playable _ _ hplay
  refine ⟨?_, opponentStore_not_mem_sowTrace p pit _, by decide, by decide, by decide⟩
  intro j hj
  have hmem : ∀ k ∈ sowTrace p pit (b.getD pit 0), k < (b.set pit 0).length := by
    intro k hk
    rw [List.length_set, hb]
    exact sowTrace_mem_lt _ _ _ k hk
  unfold sowBoard
  rw [getD_foldl_deposit _ _ j hmem]
  congr 1
  by_cases hjp : j = pit
  · subst hjp
    rw [if_pos rfl]
    exact getD_set_self b j 0 (by omega)
  · rw [if_neg hjp]
    exact getD_set_ne b pit j 0 (fun hc => hjp hc.symm)

/-- Witness for C1 at the store-skipping engine test vector (player one, pit
5): the deposit count formula at index 0 and the absence of index 13 from
the 13-counter trace. -/
theorem sowing_spec_witness :
    (sowBoard [4, 4, 4, 4, 4, 8, 0, 1, 1, 1, 1, 1, 1, 0] Player.one 5).getD 0 0 =
        (if 0 = 5 then 0 else ([4, 4, 4, 4, 4, 8, 0, 1, 1, 1, 1, 1, 1, 0] : Board).getD 0 0) +
          (sowTrace Player.one 5
              (([4, 4, 4, 4, 4, 8, 0, 1, 1, 1, 1, 1, 1, 0] : Board).getD 5 0)).count 0 ∧
      13 ∉ sowTrace Player.one 5 13 :=
  ⟨(sowing_spec [4, 4, 4, 4, 4, 8, 0, 1, 1, 1, 1, 1, 1, 0] Player.one 5 (by decide)).1 0
      (by decide),
    (sowing_spec [4, 4, 4, 4, 4, 8, 0, 1, 1, 1, 1, 1, 1, 0] Player.one 5 (by decide)).2.2.2.2⟩

lemma getD_zeroPits_not_mem (idxs : List Nat) (b : Board) (j : Nat) (h : j ∉ idxs) :
    (zeroPits b idxs).getD j 0 = b.getD j 0 := by
  induction idxs generalizing b with
  | nil => rfl
  | cons i idxs ih =>
    rw [zeroPits_cons, ih _ (fun hc => h (List.mem_cons_of_mem _ hc))]
    exact getD_set_ne b i j 0 (fun hc => h (by rw [hc]; exact List.mem_cons_self _ _))

lemma getD_zeroPits_mem (idxs : List Nat) (b : Board) (j : Nat) (hj : j ∈ idxs)
    (hlen : ∀ k ∈ idxs, k < b.length) :
    (zeroPits b idxs).getD j 0 = 0 := by
  induction idxs generalizing b with
  | nil => cases hj
  | cons i idxs ih =>
    rw [zeroPits_cons]
    by_cases hji : j ∈ idxs
    · refine ih _ hji fun k hk => ?_
      rw [List.length_set]
      exact hlen k (List.mem_cons_of_mem _ hk)
    · have hij : j = i := by
        rcases List.mem_cons.mp hj with h | h
        · exact h
        · exact absurd h hji
      rw [getD_zeroPits_not_mem _ _ _ hji, hij]
      exact getD_set_self b i 0 (hlen i (by simp))

lemma ownPits_mem_facts (q : Player) (j : Nat) (hj : j ∈ ownPits q) :
    j < 14 ∧ j ≠ ownStore q := by
  unfold ownPits ownStore at *
  by_cases hq : q == Player.one <;> simp [hq] at hj ⊢ <;>
    rcases hj with rfl | rfl | rfl | rfl | rfl | rfl <;> omega

lemma ownStore_lt (q : Player) : ownStore q < 14 := by
  unfold ownStore
  split <;> omega

lemma decideWinner_playerOne_iff (B : Board) :
    decideWinner B = Winner.playerOne ↔ B.getD 13 0 < B.getD 6 0 := by
  unfold decideWinner
  split_ifs with h1 h2
  · exact ⟨fun _ => h1, fun _ => rfl⟩
  · exact ⟨fun hc => absurd hc (by decide), fun hlt => absurd hlt h1⟩
  · exact ⟨fun hc => absurd hc (by decide), fun hlt => absurd hlt h1⟩

lemma decideWinner_playerTwo_iff (B : Board) :
    decideWinner B = Winner.playerTwo ↔ B.getD 6 0 < B.getD 13 0 := by
  unfold decideWinner
  split_ifs with h1 h2
  · exact ⟨fun hc => absurd hc (by decide), fun hlt => absurd h1 (by omega)⟩
  · exact ⟨fun _ => h2, fun _ => rfl⟩
  · exact ⟨fun hc => absurd hc (by decide), fun hlt => absurd hlt h2⟩

lemma decideWinner_draw_iff (B : Board) :
    decideWinner B = Winner.draw ↔ B.getD 6 0 = B.getD 13 0 := by
  unfold decideWinner
  split_ifs with h1 h2
  · exact ⟨fun hc => absurd hc (by decide), fun he => absurd h1 (by omega)⟩
  · exact ⟨fun hc => absurd hc (by decide), fun he => absurd h2 (by omega)⟩
  · exact ⟨fun _ => by omega, fun _ => rfl⟩

lemma otherPlayer_ne (p : Player) (h : p = Player.one ∨ p = Player.two) :
    otherPlayer p ≠ p := by
  rcases h with rfl | rfl <;> decide

/-- C2: whenever the final sown counter lands in a pit on the mover's own
side that now holds exactly one counter and the directly-opposite pit is
non-empty, the capture step moves the just-placed counter plus the entire
opposite pit into the mover's store and zeroes both pits; in particular the
capture engine test vector: board `[1,0,0,0,0,1,0,1,1,1,1,1,1,0]`, player one
moves pit 0, giving `[0,0,0,0,0,1,2,1,1,1,1,0,1,0]` with player two to
move. -/
theorem capture_spec (b : Board) (p : Player) (last : Nat) (h14 : b.length = 14)
    (hown : isOwnPit p last = true) (h1 : b.getD last 0 = 1)
    (hopp : b.getD (12 - last) 0 ≠ 0) :
    ((captureStep p b last).getD (ownStore p) 0 =
        b.getD (ownStore p) 0 + 1 + b.getD (12 - last) 0 ∧
      (captureStep p b last).getD last 0 = 0 ∧
      (captureStep p b last).getD (12 - last) 0 = 0) ∧
    engineMove
        { gameState :=
            { board := [1, 0, 0, 0, 0, 1, 0, 1, 1, 1, 1, 1, 1, 0], currentPlayer := Player.one }
          pitIndex := 0 } =
      MoveResponseBody.moveResult
        { board := [0, 0, 0, 0, 0, 1, 2, 1, 1, 1, 1, 0, 1, 0]
          currentPlayer := Player.two
          isFinished := false
          winner := Winner.noWinner } := by
  refine ⟨?_, by decide⟩
  have hcond :
      (isOwnPit p last && (b.getD last 0 == 1) && (b.getD (12 - last) 0 != 0)) = true := by
    simp only [Bool.and_eq_true, beq_iff_eq, bne_iff_ne]
    exact ⟨⟨hown, h1⟩, hopp⟩
  obtain ⟨h12, _, ho12, _, hlo, hsl, hso, hs14⟩ := isOwnPit_facts p last hown
  unfold captureStep
  rw [if_pos hcond]
  refine ⟨?_, ?_, ?_⟩
  · rw [getD_set_ne _ _ _ _ (Ne.symm hso), getD_set_ne _ _ _ _ (Ne.symm hsl)]
    exact getD_set_self b _ _ (by omega)
  · rw [getD_set_ne _ _ _ _ (Ne.symm hlo)]
    exact getD_set_self _ _ _ (by rw [List.length_set]; omega)
  · exact getD_set_self _ _ _ (by rw [List.length_set, List.length_set]; omega)

/-- Witness for C2: the capture fired by the capture engine test vector, on
the sown board `[0,1,0,0,0,1,0,1,1,1,1,1,1,0]` with the final counter in pit
1 and pit 11 opposite. -/
theorem capture_spec_witness :
    ((captureStep Player.one [0, 1, 0, 0, 0, 1, 0, 1, 1, 1, 1, 1, 1, 0] 1).getD
          (ownStore Player.one) 0 =
        ([0, 1, 0, 0, 0, 1, 0, 1, 1, 1, 1, 1, 1, 0] : Board).getD (ownStore Player.one) 0 + 1 +
          ([0, 1, 0, 0, 0, 1, 0, 1, 1, 1, 1, 1, 1, 0] : Board).getD (12 - 1) 0 ∧
      (captureStep Player.one [0, 1, 0, 0, 0, 1, 0, 1, 1, 1, 1, 1, 1, 0] 1).getD 1 0 = 0 ∧
      (captureStep Player.one [0, 1, 0, 0, 0, 1, 0, 1, 1, 1, 1, 1, 1, 0] 1).getD (12 - 1) 0 =
        0) ∧
    engineMove
        { gameState :=
            { board := [1, 0, 0, 0, 0, 1, 0, 1, 1, 1, 1, 1, 1, 0], currentPlayer := Player.one }
          pitIndex := 0 } =
      MoveResponseBody.moveResult
        { board := [0, 0, 0, 0, 0, 1, 2, 1, 1, 1, 1, 0, 1, 0]
          currentPlayer := Player.two
          isFinished := false
          winner := Winner.noWinner } :=
  capture_spec [0, 1, 0, 0, 0, 1, 0, 1, 1, 1, 1, 1, 1, 0] Player.one 1 (by decide) (by decide)
    (by decide) (by decide)

/-- C3: when, after capture processing, the mover's own six playing pits are
all zero, the move is terminal: the other side's six playing pits are zeroed
with their counters swept into that side's store, and the winner is the side
with the strictly higher store (equal stores draw); in particular the
finish-game engine test vector: board `[0,0,0,0,0,1,0,1,1,1,1,1,1,0]`, player
one moves pit 5, giving `[0,0,0,0,0,0,1,0,0,0,0,0,0,6]`, terminal, winner
player two. -/
theorem termination_spec (b : Board) (p : Player) (pit : Nat)
    (hv :
      validateMoveRequest
        { gameState := { board := b, currentPlayer := p }, pitIndex := pit } = none)
    (hz : allZero (afterCapture b p pit) (ownPits p) = true) :
    (applyMove b p pit).isFinished = true ∧
      (applyMove b p pit).board = sweep (afterCapture b p pit) (otherPlayer p) ∧
      (∀ j ∈ ownPits (otherPlayer p), (applyMove b p pit).board.getD j 0 = 0) ∧
      (applyMove b p pit).board.getD (ownStore (otherPlayer p)) 0 =
        (afterCapture b p pit).getD (ownStore (otherPlayer p)) 0 +
          ((ownPits (otherPlayer p)).map fun j => (afterCapture b p pit).getD j 0).sum ∧
      ((applyMove b p pit).winner = Winner.playerOne ↔
        (applyMove b p pit).board.getD 13 0 < (applyMove b p pit).board.getD 6 0) ∧
      ((applyMove b p pit).winner = Winner.playerTwo ↔
        (applyMove b p pit).board.getD 6 0 < (applyMove b p pit).board.getD 13 0) ∧
      ((applyMove b p pit).winner = Winner.draw ↔
        (applyMove b p pit).board.getD 6 0 = (applyMove b p pit).board.getD 13 0) ∧
      engineMove
          { gameState :=
              { board := [0, 0, 0, 0, 0, 1, 0, 1, 1, 1, 1, 1, 1, 0]
                currentPlayer := Player.one }
            pitIndex := 5 } =
        MoveResponseBody.moveResult
          { board := [0, 0, 0, 0, 0, 0, 1, 0, 0, 0, 0, 0, 0, 6]
            currentPlayer := Player.unspecified
            isFinished := true
            winner := Winner.playerTwo } := by
  obtain ⟨h14, hplay, hne⟩ := validate_none _ hv
  have hb : b.length = 14 := h14
  have hac : (afterCapture b p pit).length = 14 := by
    rw [afterCapture, captureStep_length, sowBoard_length, hb]
  have happ :
      applyMove b p pit =
        { board := sweep (afterCapture b p pit) (otherPlayer p)
          currentPlayer := Player.unspecified
          isFinished := true
          winner := decideWinner (sweep (afterCapture b p pit) (otherPlayer p)) } := by
    unfold afterCapture at hz ⊢
    simp only [applyMove]
    rw [if_pos hz]
  rw [happ]
  refine ⟨rfl, rfl, ?_, ?_, decideWinner_playerOne_iff _, decideWinner_playerTwo_iff _,
    decideWinner_draw_iff _, by decide⟩
  · intro j hj
    obtain ⟨hj14, hjs⟩ := ownPits_mem_facts _ j hj
    unfold sweep
    rw [getD_set_ne _ _ _ _ (Ne.symm hjs)]
    refine getD_zeroPits_mem _ _ _ hj fun k hk => ?_
    rw [hac]
    exact (ownPits_mem_facts _ k hk).1
  · unfold sweep
    refine getD_set_self _ _ _ ?_
    rw [zeroPits_length, hac]
    exact ownStore_lt _

/-- Witness for C3 at the finish-game engine test vector. -/
theorem termination_spec_witness :
    (applyMove [0, 0, 0, 0, 0, 1, 0, 1, 1, 1, 1, 1, 1, 0] Player.one 5).isFinished = true ∧
      (applyMove [0, 0, 0, 0, 0, 1, 0, 1, 1, 1, 1, 1, 1, 0] Player.one 5).board =
        sweep (afterCapture [0, 0, 0, 0, 0, 1, 0, 1, 1, 1, 1, 1, 1, 0] Player.one 5)
          (otherPlayer Player.one) :=
  ⟨(termination_spec [0, 0, 0, 0, 0, 1, 0, 1, 1, 1, 1, 1, 1, 0] Player.one 5 (by decide)
        (by decide)).1,
    (termination_spec [0, 0, 0, 0, 0, 1, 0, 1, 1, 1, 1, 1, 1, 0] Player.one 5 (by decide)
        (by decide)).2.1⟩

/-- C4: a non-terminating legal move keeps the mover exactly when the final
sown counter landed in the mover's own store, and otherwise alternates the
mover; in particular the extra-turn engine test vector: board
`[1,0,0,0,0,1,0,1,1,1,1,1,1,0]`, player one moves pit 5 (one counter, landing
in store 6) and stays the mover. -/
theorem extra_turn_spec (b : Board) (p : Player) (pit : Nat)
    (hv :
      validateMoveRequest
        { gameState := { board := b, currentPlayer := p }, pitIndex := pit } = none)
    (hz : allZero (afterCapture b p pit) (ownPits p) = false) :
    (applyMove b p pit).isFinished = false ∧
      (applyMove b p pit).board = afterCapture b p pit ∧
      ((applyMove b p pit).currentPlayer = p ↔ lastSown b p pit = ownStore p) ∧
      (lastSown b p pit ≠ ownStore p → (applyMove b p pit).currentPlayer = otherPlayer p) ∧
      engineMove
          { gameState :=
              { board := [1, 0, 0, 0, 0, 1, 0, 1, 1, 1, 1, 1, 1, 0]
                currentPlayer := Player.one }
            pitIndex := 5 } =
        MoveResponseBody.moveResult
          { board := [1, 0, 0, 0, 0, 0, 1, 1, 1, 1, 1, 1, 1, 0]
            currentPlayer := Player.one
            isFinished := false
            winner := Winner.noWinner } := by
  obtain ⟨h14, hplay, hne⟩ := validate_none _ hv
  have hp : p = Player.one ∨ p = Player.two := by
    rcases isPlayablePit_cases _ _ hplay with ⟨hp1, _⟩ | ⟨hp2, _⟩
    · exact Or.inl hp1
    · exact Or.inr hp2
  have happ :
      applyMove b p pit =
        { board := afterCapture b p pit
          currentPlayer := if lastSown b p pit == ownStore p then p else otherPlayer p
          isFinished := false
          winner := Winner.noWinner } := by
    unfold afterCapture at hz ⊢
    simp only [applyMove]
    rw [if_neg (by rw [hz]; exact Bool.false_ne_true)]
  rw [happ]
  refine ⟨rfl, rfl, ?_, ?_, by decide⟩
  · by_cases hl : lastSown b p pit = ownStore p
    · simp [hl]
    · rw [if_neg (by simp [hl])]
      exact ⟨fun hc => absurd hc (otherPlayer_ne p hp), fun hc => absurd hc hl⟩
  · intro hl
    rw [if_neg (by simp [hl])]

/-- Witness for C4 at the extra-turn engine test vector. -/
theorem extra_turn_spec_witness :
    (applyMove [1, 0, 0, 0, 0, 1, 0, 1, 1, 1, 1, 1, 1, 0] Player.one 5).isFinished = false ∧
      ((applyMove [1, 0, 0, 0, 0, 1, 0, 1, 1, 1, 1, 1, 1, 0] Player.one 5).currentPlayer =
          Player.one ↔
        lastSown [1, 0, 0, 0, 0, 1, 0, 1, 1, 1, 1, 1, 1, 0] Player.one 5 =
          ownStore Player.one) :=
  ⟨(extra_turn_spec [1, 0, 0, 0, 0, 1, 0, 1, 1, 1, 1, 1, 1, 0] Player.one 5 (by decide)
        (by decide)).1,
    (extra_turn_spec [1, 0, 0, 0, 0, 1, 0, 1, 1, 1, 1, 1, 1, 0] Player.one 5 (by decide)
        (by decide)).2.2.1⟩

/-- C6: for every request, the engine `Move` never returns a Go error (the
rejection is always an in-band structured response); a board whose length is
not 14, a pit not playable by the current player (not 0-5 for player one,
not 7-12 for player two), and an empty chosen pit are rejected with the
three distinct messages, checked in that order before any board
transformation; being a pure function of the request, it leaves the input
board untouched. -/
theorem precondition_spec (req : MoveRequest) :
    (∃ body, engineServerMove req = Except.ok body) ∧
      (req.gameState.board.length ≠ 14 →
        engineServerMove req = Except.ok (MoveResponseBody.error errInvalidBoard)) ∧
      (req.gameState.board.length = 14 →
        isPlayablePit req.pitIndex req.gameState.currentPlayer = false →
        engineServerMove req = Except.ok (MoveResponseBody.error errInvalidPitIndex)) ∧
      (req.gameState.board.length = 14 →
        isPlayablePit req.pitIndex req.gameState.currentPlayer = true →
        req.gameState.board.getD req.pitIndex 0 = 0 →
        engineServerMove req = Except.ok (MoveResponseBody.error errEmptyPit)) ∧
      (∀ q, isPlayablePit q Player.one = true ↔ q ≤ 5) ∧
      (∀ q, isPlayablePit q Player.two = true ↔ 7 ≤ q ∧ q ≤ 12) := by
  refine ⟨⟨engineMove req, rfl⟩, ?_, ?_, ?_, ?_, ?_⟩
  · intro h
    simp only [engineServerMove, engineMove, validateMoveRequest]
    rw [if_pos h]
  · intro h1 h2
    simp only [engineServerMove, engineMove, validateMoveRequest]
    rw [if_neg (fun hc => hc h1), if_pos (by rw [h2]; rfl)]
  · intro h1 h2 h3
    simp only [engineServerMove, engineMove, validateMoveRequest]
    rw [if_neg (fun hc => hc h1), if_neg (by rw [h2]; decide),
      if_pos (beq_iff_eq.mpr h3)]
  · intro q
    simp [isPlayablePit]
  · intro q
    simp [isPlayablePit]

/-- Witness for C6 at the three invalid engine test vectors. -/
theorem precondition_spec_witness :
    engineServerMove
        { gameState := { board := [0, 0, 0, 0, 0], currentPlayer := Player.one }
          pitIndex := 5 } =
      Except.ok (MoveResponseBody.error errInvalidBoard) ∧
    engineServerMove
        { gameState :=
            { board := [4, 0, 0, 0, 0, 0, 0, 4, 0, 0, 0, 0, 0, 0], currentPlayer := Player.one }
          pitIndex := 14 } =
      Except.ok (MoveResponseBody.error errInvalidPitIndex) ∧
    engineServerMove
        { gameState :=
            { board := [4, 0, 0, 0, 0, 0, 0, 4, 0, 0, 0, 0, 0, 0], currentPlayer := Player.one }
          pitIndex := 5 } =
      Except.ok (MoveResponseBody.error errEmptyPit) :=
  ⟨(precondition_spec
        { gameState := { board := [0, 0, 0, 0, 0], currentPlayer := Player.one }
          pitIndex := 5 }).2.1 (by decide),
    (precondition_spec
        { gameState :=
            { board := [4, 0, 0, 0, 0, 0, 0, 4, 0, 0, 0, 0, 0, 0], currentPlayer := Player.one }
          pitIndex := 14 }).2.2.1 (by decide) (by decide),
    (precondition_spec
        { gameState :=
            { board := [4, 0, 0, 0, 0, 0, 0, 4, 0, 0, 0, 0, 0, 0], currentPlayer := Player.one }
          pitIndex := 5 }).2.2.2.1 (by decide) (by decide) (by decide)⟩

/-- C7: `games.Server.Move` rejects, in source order and leaving the store
untouched with no persistence operation and no event: empty caller or game
id; unknown game id; a caller that is neither stored participant; and a
participant whose mover identity (player one iff it equals participant one)
differs from the current mover. -/
theorem submit_validation_spec (engine : MoveRequest → EngineReply) (store : Store)
    (req : MakeGameMoveRequest) :
    (req.playerId = "" ∨ req.gameId = "" →
      gamesMove engine store req =
        { response := GameMoveResult.error "player ID and game ID are required"
          store := store, ops := [], events := [] }) ∧
    (req.playerId ≠ "" → req.gameId ≠ "" → getGame store req.gameId = none →
      gamesMove engine store req =
        { response := GameMoveResult.error "game not found"
          store := store, ops := [], events := [] }) ∧
    (∀ game, req.playerId ≠ "" → req.gameId ≠ "" → getGame store req.gameId = some game →
      IsPlayerInGame game req.playerId = false →
      gamesMove engine store req =
        { response := GameMoveResult.error "player is not part of this game"
          store := store, ops := [], events := [] }) ∧
    (∀ game, req.playerId ≠ "" → req.gameId ≠ "" → getGame store req.gameId = some game →
      IsPlayerInGame game req.playerId = true →
      GetPlayerFromID req.playerId game ≠ game.state.currentPlayer →
      gamesMove engine store req =
        { response := GameMoveResult.error "it\x27s not your turn"
          store := store, ops := [], events := [] }) ∧
    (∀ pid (g : Game),
      (g.player1Id = pid → GetPlayerFromID pid g = Player.one) ∧
      (g.player1Id ≠ pid → GetPlayerFromID pid g = Player.two)) := by
  refine ⟨?_, ?_, ?_, ?_, ?_⟩
  · intro h
    have hcond : (req.playerId == "" || req.gameId == "") = true := by
      rcases h with h | h <;> simp [h]
    simp [gamesMove, hcond]
  · intro h1 h2 hget
    have hcond : (req.playerId == "" || req.gameId == "") = false := by
      simp [h1, h2]
    simp [gamesMove, hcond, hget]
  · intro game h1 h2 hget hin
    have hcond : (req.playerId == "" || req.gameId == "") = false := by
      simp [h1, h2]
    simp [gamesMove, hcond, hget, hin]
  · intro game h1 h2 hget hin hturn
    have hcond : (req.playerId == "" || req.gameId == "") = false := by
      simp [h1, h2]
    have hbne : (game.state.currentPlayer != GetPlayerFromID req.playerId game) = true :=
      bne_iff_ne.mpr (Ne.symm hturn)
    simp [gamesMove, hcond, hget, hin, hbne]
  · intro pid g
    constructor
    · intro h
      simp [GetPlayerFromID, h]
    · intro h
      simp [GetPlayerFromID, h]

/-- Witness for C7: an empty caller id is rejected without touching the
store. -/
theorem submit_validation_spec_witness :
    gamesMove (fun _ => EngineReply.reply none) []
        { playerId := "", gameId := "g", pitIndex := 0 } =
      { response := GameMoveResult.error "player ID and game ID are required"
        store := [], ops := [], events := [] } :=
  (submit_validation_spec (fun _ => EngineReply.reply none) []
      { playerId := "", gameId := "g", pitIndex := 0 }).1 (Or.inl rfl)

/-- Counterexample to C8 as stated: wiring the (spec-modelled) engine into
the coordinator and playing the terminal finish-game vector, the successful
`Move` call emits TWO events - a move-made event and then the game-over
event - not exactly one, even though it performs exactly one persistence
operation (the delete). -/
theorem side_effects_counterexample :
    (gamesMove (fun rq => EngineReply.reply (some (engineMove rq)))
          [("g1",
            { id := "g1"
              state :=
                { board := [0, 0, 0, 0, 0, 1, 0, 1, 1, 1, 1, 1, 1, 0]
                  currentPlayer := Player.one }
              player1Id := "alice"
              player2Id := "bob" })]
          { playerId := "alice", gameId := "g1", pitIndex := 5 }).response =
        GameMoveResult.moveResult
          { board := [0, 0, 0, 0, 0, 0, 1, 0, 0, 0, 0, 0, 0, 6]
            currentPlayer := Player.unspecified
            isFinished := true
            winner := Winner.playerTwo } ∧
      (gamesMove (fun rq => EngineReply.reply (some (engineMove rq)))
          [("g1",
            { id := "g1"
              state :=
                { board := [0, 0, 0, 0, 0, 1, 0, 1, 1, 1, 1, 1, 1, 0]
                  currentPlayer := Player.one }
              player1Id := "alice"
              player2Id := "bob" })]
          { playerId := "alice", gameId := "g1", pitIndex := 5 }).events.length = 2 ∧
      (gamesMove (fun rq => EngineReply.reply (some (engineMove rq)))
          [("g1",
            { id := "g1"
              state :=
                { board := [0, 0, 0, 0, 0, 1, 0, 1, 1, 1, 1, 1, 1, 0]
                  currentPlayer := Player.one }
              player1Id := "alice"
              player2Id := "bob" })]
          { playerId := "alice", gameId := "g1", pitIndex := 5 }).ops =
        [StorageOp.delete "g1"] := by
  refine ⟨?_, ?_, ?_⟩ <;> rfl

/-- C8 (amended): every successful mutating `Move` performs exactly one
persistence operation - a delete of the record when the engine result is
terminal, an overwrite when it is not - and emits a move-made event on every
success plus, additionally, a game-over event (winner id and draw flag from
`determineWinner`, final state) when terminal: two events on terminal moves,
exactly one on non-terminal ones. -/
theorem side_effects_spec (engine : MoveRequest → EngineReply) (store : Store)
    (req : MakeGameMoveRequest) (game : Game) (r : MoveResult)
    (h1 : req.playerId ≠ "") (h2 : req.gameId ≠ "")
    (hget : getGame store req.gameId = some game)
    (hin : IsPlayerInGame game req.playerId = true)
    (hturn : game.state.currentPlayer = GetPlayerFromID req.playerId game)
    (heng :
      engine { gameState := game.state, pitIndex := req.pitIndex } =
        EngineReply.reply (some (MoveResponseBody.moveResult r))) :
    (gamesMove engine store req).response = GameMoveResult.moveResult r ∧
      (r.isFinished = true →
        (gamesMove engine store req).ops = [StorageOp.delete req.gameId] ∧
        (gamesMove engine store req).events =
          [GameEvent.moveMade req.gameId req.playerId req.pitIndex
              { board := r.board, currentPlayer := r.currentPlayer } r,
            GameEvent.gameOver req.gameId
              (determineWinner r
                { game with state := { board := r.board, currentPlayer := r.currentPlayer } })
              ((determineWinner r
                  { game with
                    state := { board := r.board, currentPlayer := r.currentPlayer } }) == "")
              { board := r.board, currentPlayer := r.currentPlayer }] ∧
        (gamesMove engine store req).store = deleteGame store req.gameId) ∧
      (r.isFinished = false →
        (gamesMove engine store req).ops =
          [StorageOp.save
              { game with state := { board := r.board, currentPlayer := r.currentPlayer } }] ∧
        (gamesMove engine store req).events =
          [GameEvent.moveMade req.gameId req.playerId req.pitIndex
              { board := r.board, currentPlayer := r.currentPlayer } r] ∧
        (gamesMove engine store req).store =
          saveGame store
            { game with state := { board := r.board, currentPlayer := r.currentPlayer } }) := by
  have hcond : (req.playerId == "" || req.gameId == "") = false := by
    simp [h1, h2]
  have hbne : (game.state.currentPlayer != GetPlayerFromID req.playerId game) = false := by
    simp [bne_eq_false_iff_eq, hturn]
  by_cases hf : r.isFinished
  · refine ⟨?_, fun _ => ⟨?_, ?_, ?_⟩, fun hc => absurd hf (by simp [hc])⟩ <;>
      simp [gamesMove, hcond, hget, hin, hbne, heng, hf]
  · have hf' : r.isFinished = false := Bool.eq_false_iff.mpr hf
    refine ⟨?_, fun hc => absurd hc hf, fun _ => ⟨?_, ?_, ?_⟩⟩ <;>
      simp [gamesMove, hcond, hget, hin, hbne, heng, hf']

/-- Witness for C8 (amended) at the mock vector of the games-service test
suite: a non-terminal move by the turn holder saves once and emits exactly
the move-made event. -/
theorem side_effects_spec_witness :
    (gamesMove
          (fun _ =>
            EngineReply.reply
              (some
                (MoveResponseBody.moveResult
                  { board := [0, 5, 5, 5, 5, 4, 0, 4, 4, 4, 4, 4, 4, 0]
                    currentPlayer := Player.two
                    isFinished := false
                    winner := Winner.noWinner })))
          [("g2",
            { id := "g2"
              state :=
                { board := [4, 4, 4, 4, 4, 4, 0, 4, 4, 4, 4, 4, 4, 0]
                  currentPlayer := Player.one }
              player1Id := "alice"
              player2Id := "bob" })]
          { playerId := "alice", gameId := "g2", pitIndex := 0 }).response =
        GameMoveResult.moveResult
          { board := [0, 5, 5, 5, 5, 4, 0, 4, 4, 4, 4, 4, 4, 0]
            currentPlayer := Player.two
            isFinished := false
            winner := Winner.noWinner } ∧
      (gamesMove
          (fun _ =>
            EngineReply.reply
              (some
                (MoveResponseBody.moveResult
                  { board := [0, 5, 5, 5, 5, 4, 0, 4, 4, 4, 4, 4, 4, 0]
                    currentPlayer := Player.two
                    isFinished := false
                    winner := Winner.noWinner })))
          [("g2",
            { id := "g2"
              state :=
                { board := [4, 4, 4, 4, 4, 4, 0, 4, 4, 4, 4, 4, 4, 0]
                  currentPlayer := Player.one }
              player1Id := "alice"
              player2Id := "bob" })]
          { playerId := "alice", gameId := "g2", pitIndex := 0 }).events =
        [GameEvent.moveMade "g2" "alice" 0
            { board := [0, 5, 5, 5, 5, 4, 0, 4, 4, 4, 4, 4, 4, 0]
              currentPlayer := Player.two }
            { board := [0, 5, 5, 5, 5, 4, 0, 4, 4, 4, 4, 4, 4, 0]
              currentPlayer := Player.two
              isFinished := false
              winner := Winner.noWinner }] :=
  ⟨(side_effects_spec
        (fun _ =>
          EngineReply.reply
            (some
              (MoveResponseBody.moveResult
                { board := [0, 5, 5, 5, 5, 4, 0, 4, 4, 4, 4, 4, 4, 0]
                  currentPlayer := Player.two
                  isFinished := false
                  winner := Winner.noWinner })))
        [("g2",
          { id := "g2"
            state :=
              { board := [4, 4, 4, 4, 4, 4, 0, 4, 4, 4, 4, 4, 4, 0]
                currentPlayer := Player.one }
            player1Id := "alice"
            player2Id := "bob" })]
        { playerId := "alice", gameId := "g2", pitIndex := 0 }
        { id := "g2"
          state :=
            { board := [4, 4, 4, 4, 4, 4, 0, 4, 4, 4, 4, 4, 4, 0]
              currentPlayer := Player.one }
          player1Id := "alice"
          player2Id := "bob" }
        { board := [0, 5, 5, 5, 5, 4, 0, 4, 4, 4, 4, 4, 4, 0]
          currentPlayer := Player.two
          isFinished := false
          winner := Winner.noWinner }
        (by decide) (by decide) (by decide) (by decide) (by decide) (by decide)).1,
    ((side_effects_spec
        (fun _ =>
          EngineReply.reply
            (some
              (MoveResponseBody.moveResult
                { board := [0, 5, 5, 5, 5, 4, 0, 4, 4, 4, 4, 4, 4, 0]
                  currentPlayer := Player.two
                  isFinished := false
                  winner := Winner.noWinner })))
        [("g2",
          { id := "g2"
            state :=
              { board := [4, 4, 4, 4, 4, 4, 0, 4, 4, 4, 4, 4, 4, 0]
                currentPlayer := Player.one }
            player1Id := "alice"
            player2Id := "bob" })]
        { playerId := "alice", gameId := "g2", pitIndex := 0 }
        { id := "g2"
          state :=
            { board := [4, 4, 4, 4, 4, 4, 0, 4, 4, 4, 4, 4, 4, 0]
              currentPlayer := Player.one }
          player1Id := "alice"
          player2Id := "bob" }
        { board := [0, 5, 5, 5, 5, 4, 0, 4, 4, 4, 4, 4, 4, 0]
          currentPlayer := Player.two
          isFinished := false
          winner := Winner.noWinner }
        (by decide) (by decide) (by decide) (by decide) (by decide) (by decide)).2.2
      rfl).2.1⟩

/-- C10: `Create` accepts two equal non-empty participant ids; for a game
whose two stored participants share one identity, that identity always
resolves to player one, so whenever the stored mover is player two every
`Move` call is rejected without mutation - the shared identity gets
"it's not your turn" and any other caller is already rejected earlier. -/
theorem duplicate_ids_spec (p gid c : String) (store : Store) (game : Game) (pit : Nat)
    (engine : MoveRequest → EngineReply) (hp : p ≠ "") :
    (∃ g store2,
        gamesCreate store p p gid = Except.ok (g, store2) ∧
          g.player1Id = p ∧ g.player2Id = p) ∧
      (game.player1Id = p → GetPlayerFromID p game = Player.one) ∧
      (game.player1Id = p → game.player2Id = p → game.state.currentPlayer = Player.two →
        getGame store gid = some game →
        (gamesMove engine store { playerId := c, gameId := gid, pitIndex := pit }).store =
            store ∧
          (gamesMove engine store { playerId := c, gameId := gid, pitIndex := pit }).ops =
            [] ∧
          (∃ msg,
            (gamesMove engine store
                  { playerId := c, gameId := gid, pitIndex := pit }).response =
              GameMoveResult.error msg) ∧
          (c = p → gid ≠ "" →
            (gamesMove engine store
                  { playerId := c, gameId := gid, pitIndex := pit }).response =
              GameMoveResult.error "it\x27s not your turn")) := by
  have hpb : (p == "") = false := beq_eq_false_iff_ne.mpr hp
  refine ⟨⟨NewGame p p gid, saveGame store (NewGame p p gid), by simp [gamesCreate, hpb],
      rfl, rfl⟩, ?_, ?_⟩
  · intro h
    simp [GetPlayerFromID, h]
  · intro h1 h2 hcp hget
    by_cases hc : c = ""
    · have hcond : (c == "" || gid == "") = true := by simp [hc]
      refine ⟨?_, ?_, ⟨"player ID and game ID are required", ?_⟩,
          fun hcp' _ => absurd (hcp'.symm.trans hc) hp⟩ <;>
        simp [gamesMove, hcond]
    · by_cases hg : gid = ""
      · have hcond : (c == "" || gid == "") = true := by simp [hg]
        refine ⟨?_, ?_, ⟨"player ID and game ID are required", ?_⟩,
            fun _ hgid => absurd hg hgid⟩ <;>
          simp [gamesMove, hcond]
      · have hcond : (c == "" || gid == "") = false := by simp [hc, hg]
        by_cases hcpp : c = p
        · have hp1c : (game.player1Id == c) = true := by
            rw [h1, hcpp]
            exact beq_self_eq_true p
          have hgp : GetPlayerFromID c game = Player.one := by
            simp [GetPlayerFromID, beq_iff_eq.mp hp1c]
          have hbne : (game.state.currentPlayer != GetPlayerFromID c game) = true := by
            rw [hcp, hgp]
            decide
          refine ⟨?_, ?_, ⟨"it\x27s not your turn", ?_⟩, fun _ _ => ?_⟩ <;>
            simp [gamesMove, hcond, hget, IsPlayerInGame, hp1c, hbne]
        · have hp1c : (game.player1Id == c) = false := by
            rw [h1]
            exact beq_eq_false_iff_ne.mpr fun hpc => hcpp hpc.symm
          have hp2c : (game.player2Id == c) = false := by
            rw [h2]
            exact beq_eq_false_iff_ne.mpr fun hpc => hcpp hpc.symm
          refine ⟨?_, ?_, ⟨"player is not part of this game", ?_⟩,
              fun hcp' _ => absurd hcp' hcpp⟩ <;>
            simp [gamesMove, hcond, hget, IsPlayerInGame, hp1c, hp2c]

/-- Witness for C10: a game whose both participants are "dup" with player
two to move rejects the shared identity with the turn error. -/
theorem duplicate_ids_spec_witness :
    GetPlayerFromID "dup"
        { id := "g3"
          state :=
            { board := [4, 4, 4, 4, 4, 4, 0, 4, 4, 4, 4, 4, 4, 0]
              currentPlayer := Player.two }
          player1Id := "dup"
          player2Id := "dup" } = Player.one ∧
      (gamesMove (fun _ => EngineReply.reply none)
          [("g3",
            { id := "g3"
              state :=
                { board := [4, 4, 4, 4, 4, 4, 0, 4, 4, 4, 4, 4, 4, 0]
                  currentPlayer := Player.two }
              player1Id := "dup"
              player2Id := "dup" })]
          { playerId := "dup", gameId := "g3", pitIndex := 7 }).response =
        GameMoveResult.error "it\x27s not your turn" :=
  ⟨(duplicate_ids_spec "dup" "g3" "dup"
        [("g3",
          { id := "g3"
            state :=
              { board := [4, 4, 4, 4, 4, 4, 0, 4, 4, 4, 4, 4, 4, 0]
                currentPlayer := Player.two }
            player1Id := "dup"
            player2Id := "dup" })]
        { id := "g3"
          state :=
            { board := [4, 4, 4, 4, 4, 4, 0, 4, 4, 4, 4, 4, 4, 0]
              currentPlayer := Player.two }
          player1Id := "dup"
          player2Id := "dup" } 7 (fun _ => EngineReply.reply none) (by decide)).2.1 rfl,
    ((duplicate_ids_spec "dup" "g3" "dup"
        [("g3",
          { id := "g3"
            state :=
              { board := [4, 4, 4, 4, 4, 4, 0, 4, 4, 4, 4, 4, 4, 0]
                currentPlayer := Player.two }
            player1Id := "dup"
            player2Id := "dup" })]
        { id := "g3"
          state :=
            { board := [4, 4, 4, 4, 4, 4, 0, 4, 4, 4, 4, 4, 4, 0]
              currentPlayer := Player.two }
          player1Id := "dup"
          player2Id := "dup" } 7 (fun _ => EngineReply.reply none) (by decide)).2.2 rfl rfl
        rfl (by decide)).2.2.2 rfl (by decide)⟩
